import Mathlib

/-!
Verification of the ATC message classification pipeline (`atc_logic.py`,
class `ATCMessageProcessor`): a shallow embedding of the pure logic of
`generate_classification_prompt`, `call_ollama_api`'s outcome mapping,
`parse_response` and `classify_message`, with theorems settling the frozen
claims about them.

Text is modelled as `String` / `List Char`; the Python regular expressions
used by `parse_response` (the five tag patterns, compiled with
`re.IGNORECASE | re.DOTALL` and applied with `re.search`) are embedded as
explicit recursive scanning functions whose behaviour matches Python's
leftmost-match, greedy-`\s*`, lazy-`(.+?)` semantics on these particular
patterns. Case folding and whitespace are modelled at ASCII granularity,
which is faithful for the ASCII tags and reply texts the program deals in.
The network call is modelled by an explicit `TransportOutcome` value that
stands for what the single `requests.post` in `call_ollama_api` did.
-/

namespace ATCLogic

/-- Character lists, the representation the embedded scanners work on. -/
abbrev Chars := List Char

/-- ASCII whitespace: the characters the regex class `\s` matches and
`str.strip()` removes for ASCII text (space, tab, newline, carriage
return, vertical tab, form feed). -/
def isSpaceChar (c : Char) : Bool :=
  c == ' ' || c == '\t' || c == '\n' || c == '\r' ||
    c == Char.ofNat 11 || c == Char.ofNat 12

/-- ASCII lower-casing, the case folding relevant to `re.IGNORECASE` over
the ASCII tag literals of `parse_response`. -/
def lowerAscii (c : Char) : Char :=
  if 'A' ≤ c && c ≤ 'Z' then Char.ofNat (c.toNat + 32) else c

/-- Case-insensitive prefix test: the ASCII-case-folded first list is a
prefix of the case-folded second. -/
def ciIsPrefix : Chars → Chars → Bool
  | [], _ => true
  | _ :: _, [] => false
  | a :: as, b :: bs => (lowerAscii a == lowerAscii b) && ciIsPrefix as bs

/-- Case-sensitive prefix test on character lists. -/
def isPrefixOfCS : Chars → Chars → Bool
  | [], _ => true
  | _ :: _, [] => false
  | a :: as, b :: bs => (a == b) && isPrefixOfCS as bs

/-- Case-sensitive substring test, the embedding of Python's
`pat in s` membership on strings. -/
def containsSub (pat : Chars) : Chars → Bool
  | [] => isPrefixOfCS pat []
  | c :: rest => isPrefixOfCS pat (c :: rest) || containsSub pat rest

/-- `str.strip()`: remove leading and trailing whitespace. -/
def stripChars (s : Chars) : Chars :=
  ((s.dropWhile isSpaceChar).reverse.dropWhile isSpaceChar).reverse

/-- Terminator of the lazy group in the four single-line tag patterns
`TAG:\s*(.+?)(?:\n|$)`: the group ends at a newline or at end of text. -/
def lineTerm : Chars → Bool
  | [] => true
  | c :: _ => c == '\n'

/-- Terminator of the lazy group in the details pattern
`DETAILS:\s*(.+?)(?:\n|RESPONSE:|$)`: a newline, a case-insensitive
`RESPONSE:` tag, or end of text — whichever position comes first. -/
def detailsTerm (s : Chars) : Bool :=
  lineTerm s || ciIsPrefix "RESPONSE:".data s

/-- After the first group character, the lazy `(.+?)` extends the group one
character at a time and stops at the first position where the terminator
alternation matches. -/
def takeGroupAux (isTerm : Chars → Bool) : Chars → Chars
  | [] => []
  | c :: rest => if isTerm (c :: rest) then [] else c :: takeGroupAux isTerm rest

/-- The captured group: `(.+?)` must take at least one character (with
`re.DOTALL` any character, a newline included), then stops at the first
terminator position. -/
def takeGroup (isTerm : Chars → Bool) : Chars → Chars
  | [] => []
  | c :: rest => c :: takeGroupAux isTerm rest

/-- The group captured from the text that follows a matched tag: the greedy
`\s*` first consumes the maximal whitespace run; if that reaches the end of
the text it backtracks by one character so that `(.+?)` can still take one
(that character is the last whitespace character). -/
def extractAt (isTerm : Chars → Bool) (afterTag : Chars) : Chars :=
  match afterTag.dropWhile isSpaceChar with
  | [] => [afterTag.getLastD ' ']
  | c :: rest => takeGroup isTerm (c :: rest)

/-- `re.search` for a pattern `TAG:\s*(.+?)(?:…|$)` under
`re.IGNORECASE | re.DOTALL`: scan left to right for the first position
where the tag matches case-insensitively and at least one character
follows it (otherwise `(.+?)` cannot match and the search moves on);
return the captured group there. `none` models "no match". -/
def searchTag (tag : Chars) (isTerm : Chars → Bool) : Chars → Option Chars
  | [] => none
  | c :: rest =>
      if ciIsPrefix tag (c :: rest) && !(List.drop tag.length (c :: rest)).isEmpty then
        some (extractAt isTerm (List.drop tag.length (c :: rest)))
      else searchTag tag isTerm rest

/-- One iteration of `parse_response`'s extraction loop for one key: keep
the default unless the tag matched and the stripped value is nonempty and
is neither of the sentinel strings `"[Not specified]"` and `"N/A"`. -/
def fieldValue (tag : String) (isTerm : Chars → Bool) (dflt : String) (r : Chars) :
    String :=
  match searchTag tag.data isTerm r with
  | none => dflt
  | some g =>
      let value := stripChars g
      if value ≠ [] ∧ value ≠ "[Not specified]".data ∧ value ≠ "N/A".data then
        String.mk value
      else dflt

/-- The dictionary `parse_response` builds: all five keys are always
present by construction, mirroring the Python dict initialised with all
five keys and only ever updated at existing keys. -/
structure ParsedFields where
  sender : String
  type : String
  aircraft : String
  details : String
  response : String
deriving DecidableEq, Repr

/-- The initial value of `parsed` in `parse_response`: the five defaults. -/
def defaultFields : ParsedFields :=
  { sender := "Unknown"
    type := "Unknown"
    aircraft := "Not specified"
    details := "No details provided"
    response := "No response generated" }

/-- `ATCMessageProcessor.parse_response`: the error short-circuit for an
empty reply or one containing the literal `"Error:"`, then the five
regex extractions. -/
def parse_response (response : String) : ParsedFields :=
  if response.data = [] ∨ containsSub "Error:".data response.data = true then
    { defaultFields with
        details := if response.data = [] then "No response received" else response }
  else
    { sender := fieldValue "SENDER:" lineTerm "Unknown" response.data
      type := fieldValue "TYPE:" lineTerm "Unknown" response.data
      aircraft := fieldValue "AIRCRAFT:" lineTerm "Not specified" response.data
      details := fieldValue "DETAILS:" detailsTerm "No details provided" response.data
      response := fieldValue "RESPONSE:" lineTerm "No response generated" response.data }

/-- What the single `requests.post` of `call_ollama_api` did: an HTTP
response arrived (with its status, the `message.content` text extracted
from its JSON body — `""` when absent, per `.get("content", "")` — and its
body text), or one of the three caught exception kinds was raised. -/
inductive TransportOutcome where
  | httpResponse (status : Nat) (content : String) (bodyText : String)
  | requestException (detail : String)
  | jsonDecodeError (detail : String)
  | unexpectedException (detail : String)

/-- `ATCMessageProcessor.call_ollama_api`'s outcome mapping: status 200
returns the content; a non-200 status returns `"Error: HTTP <status> -
<body>"`; the three exception handlers return `"Connection Error: …"`,
`"JSON Error: …"` and `"Unexpected Error: …"` respectively. The Python
return type is `Optional[str]`, hence `Option String` here. -/
def call_ollama_api (o : TransportOutcome) : Option String :=
  match o with
  | .httpResponse status content bodyText =>
      if status == 200 then some content
      else some ("Error: HTTP " ++ toString status ++ " - " ++ bodyText)
  | .requestException detail => some ("Connection Error: " ++ detail)
  | .jsonDecodeError detail => some ("JSON Error: " ++ detail)
  | .unexpectedException detail => some ("Unexpected Error: " ++ detail)

/-- The fixed middle of the prompt template: formatting rules and few-shot
examples for a generated PILOT response, and the mandated five-line tagged
reply format. Verbatim from the f-string in
`generate_classification_prompt`. -/
def promptTail : String :=
  "

PILOT RESPONSE FORMAT:
ALways put flight number at the end while generating flight response.
When generating a PILOT response, it must be a concise read-back of the key instruction. It should not be a long sentence.
The flight number should come at end (this is must).
If you do not know the answer just say COPY along with flight number.
For example:

- ATC: Airbus AI101 San Francisco Tower. Altimeter 2992 Make straight in.
- PILOT: Fly straight in runway 28R Airbus AI101.
- ATC: Cessna VT-YSU Approach Squawk 4307
- PILOT: Squawk 4307 Cessna YSU
- ATC: N300EP radio check
- PILOT:N300EP 5 by 5
- ATC: Boeing BA202 Altimeter 2992 departure to the west approved.
- PILOT: Cleared for takeoff runway 28R
- ATC: Delta 789, contact departure on 121.9.
- PILOT: Copied Delta 789.
- ATC: United 456, climb and maintain one zero thousand feet.
- PILOT: Climbing to one zero thousand, United 456.
- ATC: Southwest 123, turn right heading two five zero.
- PILOT: Right heading two five zero, Southwest 123.
- ATC: American 789, hold short of runway two eight right.
- PILOT: Holding short two eight right, American 789.
-ATC:N350KA you are off course Correct and resume own navigation
-PILOT:Correcting and resuming own navigation N350KA
-ATC:N750BG you are off course Correct and resume own navigation
-PILOT:Correcting and resuming own navigation N750BG

Respond in this exact format:
SENDER: [PILOT/ATC]
TYPE: [EMERGENCY/NORMAL/WEATHER/TRAFFIC/NAVIGATION/FUEL/RUNWAY/COMMUNICATION]
AIRCRAFT: [Call sign if mentioned]
DETAILS: [Brief description]
RESPONSE: [Appropriate response - ATC response if sender is PILOT, PILOT response if sender is ATC]
"

/-- `ATCMessageProcessor.generate_classification_prompt`: the sender- and
response-instruction lines selected from `sender_type`, interpolated into
the fixed template. -/
def generate_classification_prompt (message : String) (sender_type : String) :
    String :=
  let sender_instruction :=
    if sender_type == "AUTO" then
      "1. Determine if the message is from a PILOT or from ATC (Air Traffic Control). ATC messages often contain instructions, clearances, or information directed at an aircraft (e.g., 'cleared for takeoff', 'squawk 7700', 'contact tower'). Pilot messages are often read-backs of instructions, requests, or reports (e.g., 'ready for departure', 'requesting higher altitude', 'Mayday')."
    else if sender_type == "PILOT" then
      "1. This message is from a PILOT"
    else
      "1. This message is from ATC (Air Traffic Control)"
  let response_instruction :=
    if sender_type == "AUTO" then
      "4. Provide appropriate response (if from PILOT, give ATC response; if from ATC, give PILOT response)"
    else if sender_type == "PILOT" then
      "4. Provide appropriate ATC response to this pilot message"
    else
      "4. Provide appropriate PILOT response to this ATC message"
  "\nYou are an ATC Message Classification System. Analyze this aviation communication message and classify it.\n\nMessage: \""
    ++ message ++ "\"\nSender Type: " ++ sender_type
    ++ "\n\nYour task:\n" ++ sender_instruction
    ++ "\n2. Classify the message type (EMERGENCY, NORMAL, WEATHER, TRAFFIC, etc.)\n3. Extract key information (aircraft ID, runway, altitude, etc.)\n"
    ++ response_instruction ++ promptTail

/-- The dictionary `classify_message` returns. `data = none` models the
empty dict `{}` of the two failure returns, and `raw_response = none`
models the absence of the `"raw_response"` key there. -/
structure ClassificationResult where
  success : Bool
  error : Option String
  data : Option ParsedFields
  raw_response : Option String
deriving DecidableEq, Repr

/-- `ATCMessageProcessor.classify_message`, instrumented with the list of
prompts handed to `call_ollama_api` (empty exactly when no API call was
made): the blank-message short-circuit, the `None`-reply short-circuit,
and the success envelope around `parse_response`. -/
def classify_message (message : String) (sender_type : String)
    (outcome : TransportOutcome) : ClassificationResult × List String :=
  if stripChars message.data = [] then
    ({ success := false, error := some "Please enter a message to classify",
       data := none, raw_response := none }, [])
  else
    let prompt := generate_classification_prompt message sender_type
    match call_ollama_api outcome with
    | none =>
        ({ success := false, error := some "No response from Ollama API",
           data := none, raw_response := none }, [prompt])
    | some raw =>
        ({ success := true, error := none, data := some (parse_response raw),
           raw_response := some raw }, [prompt])

/-! Helper lemmas about the embedded string machinery. -/

/-- Appending strings appends their character lists. -/
theorem data_append (s t : String) : (s ++ t).data = s.data ++ t.data := rfl

/-- A case-sensitive prefix of a list is a prefix of any extension of it. -/
theorem isPrefixOfCS_append {p q : Chars} (t : Chars)
    (h : isPrefixOfCS p q = true) : isPrefixOfCS p (q ++ t) = true := by
  induction p generalizing q with
  | nil => simp [isPrefixOfCS]
  | cons a as ih =>
      cases q with
      | nil => simp [isPrefixOfCS] at h
      | cons b bs =>
          simp only [isPrefixOfCS, Bool.and_eq_true] at h ⊢
          exact ⟨h.1, ih h.2⟩

/-- The empty pattern is a substring of any list. -/
theorem containsSub_nil (t : Chars) : containsSub [] t = true := by
  induction t with
  | nil => rfl
  | cons c rest ih => simp [containsSub, isPrefixOfCS]

/-- A prefix occurrence is in particular a substring occurrence. -/
theorem containsSub_of_prefix {p s : Chars} (h : isPrefixOfCS p s = true) :
    containsSub p s = true := by
  cases s with
  | nil => exact h
  | cons c rest => simp [containsSub, h]

/-- A substring of a list is a substring of any extension of it. -/
theorem containsSub_append {p q : Chars} (t : Chars)
    (h : containsSub p q = true) : containsSub p (q ++ t) = true := by
  induction q with
  | nil =>
      cases p with
      | nil => exact containsSub_nil t
      | cons a as => simp [containsSub, isPrefixOfCS] at h
  | cons c rest ih =>
      simp only [containsSub, Bool.or_eq_true] at h
      rcases h with h | h
      · simp only [List.cons_append, containsSub, Bool.or_eq_true]
        exact Or.inl (isPrefixOfCS_append t h)
      · simp only [List.cons_append, containsSub, Bool.or_eq_true]
        exact Or.inr (ih h)

/-- Every branch of `call_ollama_api` returns a value: the function never
produces `None`. -/
theorem call_ollama_api_total (o : TransportOutcome) :
    ∃ raw, call_ollama_api o = some raw := by
  cases o with
  | httpResponse status content bodyText =>
      by_cases h : status == 200 <;> simp [call_ollama_api, h]
  | requestException detail => exact ⟨_, rfl⟩
  | jsonDecodeError detail => exact ⟨_, rfl⟩
  | unexpectedException detail => exact ⟨_, rfl⟩

/-- A string built from a nonempty character list is nonempty. -/
theorem mk_ne_empty {l : Chars} (h : l ≠ []) : String.mk l ≠ "" := by
  intro he
  exact h (congrArg String.data he)

/-- A string whose character list is nonempty is nonempty. -/
theorem ne_empty_of_data {s : String} (h : s.data ≠ []) : s ≠ "" := by
  intro he
  exact h (congrArg String.data he)

/-- The extraction step never stores an empty value: each field of the
parsed result is the (nonempty) default or a nonempty stripped match. -/
theorem fieldValue_ne_empty (tag : String) (isTerm : Chars → Bool)
    {dflt : String} (hd : dflt ≠ "") (r : Chars) :
    fieldValue tag isTerm dflt r ≠ "" := by
  unfold fieldValue
  cases searchTag tag.data isTerm r with
  | none => exact hd
  | some g =>
      simp only
      split
      · next h => exact mk_ne_empty h.1
      · exact hd

/-- When the tag pattern has no match the field keeps its default. -/
theorem fieldValue_of_none {tag : String} {isTerm : Chars → Bool}
    {r : Chars} (dflt : String) (h : searchTag tag.data isTerm r = none) :
    fieldValue tag isTerm dflt r = dflt := by
  unfold fieldValue
  rw [h]

/-! The claims. -/

/-- C1, counterexample: at the concrete transport failure `requestException
"timed out"`, `call_ollama_api` returns `"Connection Error: timed out"`,
which does not begin with the prefix `"Error: Connection Error:"` the
claim asserts. -/
theorem claim_C1_counterexample :
    call_ollama_api (TransportOutcome.requestException "timed out") =
      some "Connection Error: timed out" ∧
    isPrefixOfCS "Error: Connection Error:".data
      "Connection Error: timed out".data = false := by
  decide

/-- C1, amended: for every transport-level failure raised during the
request, `call_ollama_api` returns the text `"Connection Error: <detail>"`
— beginning with the literal prefix `"Connection Error:"`, not
`"Error: Connection Error:"` — and that text still contains the substring
`"Error:"`, so the parser's error short-circuit applies to it. -/
theorem claim_C1 (detail : String) :
    call_ollama_api (TransportOutcome.requestException detail) =
      some ("Connection Error: " ++ detail) ∧
    isPrefixOfCS "Connection Error:".data
      ("Connection Error: " ++ detail).data = true ∧
    containsSub "Error:".data ("Connection Error: " ++ detail).data = true := by
  refine ⟨rfl, ?_, ?_⟩
  · rw [data_append]
    exact isPrefixOfCS_append _ (by decide)
  · rw [data_append]
    exact containsSub_append _ (by decide)

/-- C2: evaluation of `parse_response` at the failing input. The claim (and
the spec) say a `DETAILS` value spanning a line break before the
`RESPONSE:` tag is returned in full, but the lazy group of the pattern
`DETAILS:\s*(.+?)(?:\n|RESPONSE:|$)` stops at the first position where any
terminator alternative matches, and `\n` comes before `RESPONSE:` here: the
extracted details are `"engine fire"`, truncated at the first line break,
not `"engine fire\nspreading fast"`. -/
theorem claim_C2_code_eval :
    (parse_response
        "SENDER: PILOT\nDETAILS: engine fire\nspreading fast\nRESPONSE: Roger").details =
      "engine fire" ∧
    (parse_response
        "SENDER: PILOT\nDETAILS: engine fire\nspreading fast\nRESPONSE: Roger").details ≠
      "engine fire\nspreading fast" := by
  decide

/-- C8: the well-formed five-line reply parses to exactly the claimed
fields. -/
theorem claim_C8 :
    parse_response
        "SENDER: PILOT\nTYPE: EMERGENCY\nAIRCRAFT: N123AB\nDETAILS: engine fire\nRESPONSE: Declare emergency, cleared direct, N123AB" =
      { sender := "PILOT", type := "EMERGENCY", aircraft := "N123AB",
        details := "engine fire",
        response := "Declare emergency, cleared direct, N123AB" } := by
  decide

/-- C9: whenever a tag matches but the stripped value is empty or is one of
the sentinels `"[Not specified]"` and `"N/A"`, the field keeps its default;
in particular a reply containing `AIRCRAFT: N/A` yields
`aircraft = "Not specified"`. -/
theorem claim_C9 :
    (∀ (tag : String) (isTerm : Chars → Bool) (dflt : String) (r g : Chars),
      searchTag tag.data isTerm r = some g →
      stripChars g = [] ∨ stripChars g = "[Not specified]".data ∨
        stripChars g = "N/A".data →
      fieldValue tag isTerm dflt r = dflt) ∧
    (parse_response "SENDER: PILOT\nAIRCRAFT: N/A").aircraft = "Not specified" := by
  constructor
  · intro tag isTerm dflt r g hs hv
    unfold fieldValue
    rw [hs]
    show (if stripChars g ≠ [] ∧ stripChars g ≠ "[Not specified]".data ∧
        stripChars g ≠ "N/A".data then String.mk (stripChars g) else dflt) = dflt
    rw [if_neg]
    rintro ⟨h1, h2, h3⟩
    rcases hv with hv | hv | hv
    exacts [h1 hv, h2 hv, h3 hv]
  · decide

/-- C9, witness: the sentinel rejection applied at the concrete match
`AIRCRAFT: N/A`. -/
theorem claim_C9_witness :
    fieldValue "AIRCRAFT:" lineTerm "Not specified" "AIRCRAFT: N/A".data =
      "Not specified" :=
  claim_C9.1 "AIRCRAFT:" lineTerm "Not specified" "AIRCRAFT: N/A".data
    "N/A".data (by decide) (Or.inr (Or.inr (by decide)))

/-- C3: for every non-blank message, whatever the transport did,
`call_ollama_api` returns a string and `classify_message` wraps it in the
success envelope: `success = true`, `error = none`, `data` the parsed
fields, and the raw reply included — even when the raw reply encodes a
transport or API error. -/
theorem claim_C3 (message sender_type : String) (o : TransportOutcome)
    (h : stripChars message.data ≠ []) :
    ∃ raw, call_ollama_api o = some raw ∧
      (classify_message message sender_type o).1 =
        { success := true, error := none, data := some (parse_response raw),
          raw_response := some raw } := by
  obtain ⟨raw, hraw⟩ := call_ollama_api_total o
  refine ⟨raw, hraw, ?_⟩
  simp [classify_message, h, hraw]

/-- C3, witness: the success envelope at a concrete non-blank message whose
reply is itself a transport-error string. -/
theorem claim_C3_witness :
    ∃ raw, call_ollama_api (TransportOutcome.requestException "refused") =
        some raw ∧
      (classify_message "Mayday" "AUTO"
          (TransportOutcome.requestException "refused")).1 =
        { success := true, error := none, data := some (parse_response raw),
          raw_response := some raw } :=
  claim_C3 "Mayday" "AUTO" (TransportOutcome.requestException "refused")
    (by decide)

/-- C4: a raw reply containing `"Error:"` anywhere, or the empty reply,
short-circuits `parse_response` to the defaults with `details` set to the
raw text, or to `"No response received"` when the raw text is empty. -/
theorem claim_C4 (raw : String)
    (h : containsSub "Error:".data raw.data = true ∨ raw.data = []) :
    parse_response raw =
      { defaultFields with
          details := if raw.data = [] then "No response received" else raw } := by
  unfold parse_response
  rw [if_pos h.symm]

/-- C4, witness: the short-circuit at a concrete reply containing
`"Error:"` in the middle of the text. -/
theorem claim_C4_witness :
    parse_response "Connection Error: boom" =
      { defaultFields with
          details := if "Connection Error: boom".data = [] then
            "No response received" else "Connection Error: boom" } :=
  claim_C4 "Connection Error: boom" (Or.inl (by decide))

/-- C5: a blank or whitespace-only message short-circuits
`classify_message` to the fixed empty-input failure envelope, with the
empty call trace recording that `call_ollama_api` was never invoked. -/
theorem claim_C5 (message sender_type : String) (o : TransportOutcome)
    (h : stripChars message.data = []) :
    classify_message message sender_type o =
      ({ success := false, error := some "Please enter a message to classify",
         data := none, raw_response := none }, []) := by
  simp [classify_message, h]

/-- C5, witness: the empty-input failure at a concrete whitespace-only
message. -/
theorem claim_C5_witness :
    classify_message "  \n " "AUTO" (TransportOutcome.requestException "x") =
      ({ success := false, error := some "Please enter a message to classify",
         data := none, raw_response := none }, []) :=
  claim_C5 "  \n " "AUTO" (TransportOutcome.requestException "x") (by decide)

/-- C6: `parse_response` is total by construction and its result always
carries all five fields with nonempty values; on a reply outside the error
short-circuit, any field whose tag pattern finds no match degrades to its
default, so malformed, partial or reordered tag blocks yield partial
extraction plus defaults for the rest. -/
theorem claim_C6 (s : String) :
    (parse_response s).sender ≠ "" ∧ (parse_response s).type ≠ "" ∧
    (parse_response s).aircraft ≠ "" ∧ (parse_response s).details ≠ "" ∧
    (parse_response s).response ≠ "" ∧
    (¬ (s.data = [] ∨ containsSub "Error:".data s.data = true) →
      (searchTag "SENDER:".data lineTerm s.data = none →
        (parse_response s).sender = "Unknown") ∧
      (searchTag "TYPE:".data lineTerm s.data = none →
        (parse_response s).type = "Unknown") ∧
      (searchTag "AIRCRAFT:".data lineTerm s.data = none →
        (parse_response s).aircraft = "Not specified") ∧
      (searchTag "DETAILS:".data detailsTerm s.data = none →
        (parse_response s).details = "No details provided") ∧
      (searchTag "RESPONSE:".data lineTerm s.data = none →
        (parse_response s).response = "No response generated")) := by
  by_cases herr : s.data = [] ∨ containsSub "Error:".data s.data = true
  · have hp : parse_response s =
        { defaultFields with
            details := if s.data = [] then "No response received" else s } := by
      unfold parse_response
      rw [if_pos herr]
    rw [hp]
    refine ⟨show "Unknown" ≠ "" by decide, show "Unknown" ≠ "" by decide,
      show "Not specified" ≠ "" by decide, ?_,
      show "No response generated" ≠ "" by decide, fun hn => absurd herr hn⟩
    show (if s.data = [] then "No response received" else s) ≠ ""
    split
    · decide
    · next hne => exact ne_empty_of_data hne
  · have hp : parse_response s =
        { sender := fieldValue "SENDER:" lineTerm "Unknown" s.data
          type := fieldValue "TYPE:" lineTerm "Unknown" s.data
          aircraft := fieldValue "AIRCRAFT:" lineTerm "Not specified" s.data
          details := fieldValue "DETAILS:" detailsTerm "No details provided" s.data
          response := fieldValue "RESPONSE:" lineTerm "No response generated" s.data } := by
      unfold parse_response
      rw [if_neg herr]
    rw [hp]
    exact ⟨fieldValue_ne_empty _ _ (by decide) _,
      fieldValue_ne_empty _ _ (by decide) _,
      fieldValue_ne_empty _ _ (by decide) _,
      fieldValue_ne_empty _ _ (by decide) _,
      fieldValue_ne_empty _ _ (by decide) _,
      fun _ => ⟨fun h => fieldValue_of_none _ h, fun h => fieldValue_of_none _ h,
        fun h => fieldValue_of_none _ h, fun h => fieldValue_of_none _ h,
        fun h => fieldValue_of_none _ h⟩⟩

/-- C6, witness: a tagless reply outside the error short-circuit keeps the
defaults for the fields shown. -/
theorem claim_C6_witness :
    (parse_response "just chatter").sender = "Unknown" ∧
    (parse_response "just chatter").details = "No details provided" := by
  have h := (claim_C6 "just chatter").2.2.2.2.2 (by decide)
  exact ⟨h.1 (by decide), h.2.2.2.1 (by decide)⟩

/-- C7: a non-200 HTTP status (here 500) maps to the text
`"Error: HTTP 500 - <body>"`, which begins with `"Error: HTTP 500"`, and
`parse_response` applied to that text yields `details` equal to that exact
text. -/
theorem claim_C7 (content body : String) :
    call_ollama_api (TransportOutcome.httpResponse 500 content body) =
      some ("Error: HTTP 500 - " ++ body) ∧
    isPrefixOfCS "Error: HTTP 500".data
      ("Error: HTTP 500 - " ++ body).data = true ∧
    (parse_response ("Error: HTTP 500 - " ++ body)).details =
      "Error: HTTP 500 - " ++ body := by
  have hc : containsSub "Error:".data ("Error: HTTP 500 - " ++ body).data = true := by
    rw [data_append]
    exact containsSub_append _ (by decide)
  have hne : ("Error: HTTP 500 - " ++ body).data ≠ [] := by
    rw [data_append]
    intro h
    exact absurd (List.append_eq_nil.mp h).1 (by decide)
  refine ⟨rfl, ?_, ?_⟩
  · rw [data_append]
    exact isPrefixOfCS_append _ (by decide)
  · unfold parse_response
    rw [if_pos (Or.inr hc)]
    show (if ("Error: HTTP 500 - " ++ body).data = [] then "No response received"
        else "Error: HTTP 500 - " ++ body) = "Error: HTTP 500 - " ++ body
    rw [if_neg hne]

/-- C10: `call_ollama_api` yields a value on every execution path — every
outcome, the exception handlers included, encodes into a text — so the
`classify_message` branch that would report "No response from Ollama API"
is unreachable for every input. -/
theorem claim_C10 (message sender_type : String) (o : TransportOutcome) :
    (call_ollama_api o).isSome = true ∧
    (classify_message message sender_type o).1.error ≠
      some "No response from Ollama API" := by
  obtain ⟨raw, hraw⟩ := call_ollama_api_total o
  constructor
  · rw [hraw]
    rfl
  · by_cases h : stripChars message.data = []
    · simp only [classify_message]
      rw [if_pos h]
      decide
    · simp only [classify_message]
      rw [if_neg h, hraw]
      simp

end ATCLogic
